import Mathlib

/-!
Verification development for f007th-rpi (src/f007th_send.cpp).

The file embeds, as executable Lean definitions, the dispatch pipeline of
the program: the per-message policy of the orchestration loop in main
(lines 180-201), the curl write callback that captures the bounded server
response (lines 238-249), and the send function that performs one HTTP
exchange and classifies its outcome (lines 251-346).  Machine integers of
type size_t are modelled as Nat with explicit reduction modulo 2 ^ 64.
-/

namespace F007th

/-- Modulus of size_t arithmetic (64-bit unsigned). -/
def W64 : Nat := 2 ^ 64

/-- Wrapping size_t subtraction: (a - b) mod 2 ^ 64. -/
def subW64 (a b : Nat) : Nat := (a + W64 - b % W64) % W64

/-- Server type enum from line 17 of the source. -/
inductive ServerType
  | REST
  | InfluxDB
deriving DecidableEq

/-- Modelled from the spec: the change bitmask is a set of three independent
flags TemperatureChanged, HumidityChanged, BatteryChanged; the numeric
constants TEMPERATURE_IS_CHANGED, HUMIDITY_IS_CHANGED and
BATTERY_STATUS_IS_CHANGED come from SensorsData.hpp, which is not under src;
they are modelled as three distinct one-bit values. -/
def TEMPERATURE_IS_CHANGED : Nat := 1

/-- Modelled from the spec: see TEMPERATURE_IS_CHANGED. -/
def HUMIDITY_IS_CHANGED : Nat := 2

/-- Modelled from the spec: see TEMPERATURE_IS_CHANGED. -/
def BATTERY_STATUS_IS_CHANGED : Nat := 4

/-- The full change bitmask forced at line 189 of the source:
TEMPERATURE_IS_CHANGED | HUMIDITY_IS_CHANGED | BATTERY_STATUS_IS_CHANGED. -/
def fullMask : Nat := TEMPERATURE_IS_CHANGED ||| HUMIDITY_IS_CHANGED ||| BATTERY_STATUS_IS_CHANGED

/-- The fields of ReceivedMessage that the loop body consults: isEmpty,
isUndecoded, isValid and getDecodingStatus (the message class itself lives
in a header that is external to src; only these observers are used by the
embedded code). -/
structure Message where
  isEmpty : Bool
  isUndecoded : Bool
  isValid : Bool
  decodingStatus : Nat
deriving DecidableEq

/-- The terminal action the loop body (lines 180-201) takes for one message.
dispatch changed means send(message, ..., changed, ...) is invoked with the
given change bitmask; the other constructors are the report-only branches. -/
inductive LoopAction
  | reportEmpty
  | reportUndecoded (status : Nat)
  | dispatch (changed : Nat)
  | skipInvalid
  | skipUnchanged
deriving DecidableEq

/-- Embedding of the per-message classifier of main, lines 180-201.
tracker is the bitmask sensorsData.update(message.getData()) would return;
it is consulted only when the message is valid, exactly as at line 187. -/
def classifyMessage (m : Message) (tracker : Nat) (changes_only : Bool)
    (server_type : ServerType) : LoopAction :=
  if m.isEmpty then
    LoopAction.reportEmpty
  else if m.isUndecoded then
    LoopAction.reportUndecoded m.decodingStatus
  else
    let changed := if m.isValid then tracker else 0
    let changed :=
      if changed == 0 && !changes_only && (m.isValid || server_type == ServerType.REST) then
        fullMask
      else changed
    if changed ≠ 0 then LoopAction.dispatch changed
    else if !m.isValid then LoopAction.skipInvalid
    else LoopAction.skipUnchanged

/-- Result codes of curl_easy_perform that the source distinguishes:
CURLE_OK, CURLE_ABORTED_BY_CALLBACK (line 338), and every other error code
collapsed into otherError. -/
inductive CURLcode
  | CURLE_OK
  | CURLE_ABORTED_BY_CALLBACK
  | otherError
deriving DecidableEq

/-- One delivery of response data to the write callback: curl passes a
pointer ptr to size * nmemb bytes; data is the byte content behind ptr. -/
structure Chunk where
  size : Nat
  nmemb : Nat
  data : List Nat
deriving DecidableEq

/-- Well-formedness guaranteed by curl for every callback delivery: the
memory behind ptr holds exactly size * nmemb readable bytes. -/
def chunkWF (c : Chunk) : Prop := c.data.length = c.nmemb * c.size

instance (c : Chunk) : Decidable (chunkWF c) := by
  unfold chunkWF; infer_instance

/-- Concatenation of the byte streams of a chunk list, in delivery order. -/
def flatData (chunks : List Chunk) : List Nat :=
  chunks.foldr (fun c acc => c.data ++ acc) []

/-- Total number of bytes (sum of size * nmemb) over a chunk list. -/
def totalSize (chunks : List Chunk) : Nat :=
  (chunks.map (fun c => c.nmemb * c.size)).sum

/-- The capture state threaded through write_callback invocations: the
current contents of response_buffer, the offset of the response_data
pointer from the buffer base, and the remaining capacity response_len
(a size_t in the source). -/
structure CaptureState where
  buf : List Nat
  off : Nat
  response_len : Nat
deriving DecidableEq

/-- Overwrite bytes of buf starting at offset off (the effect of
memcpy(base + off, bytes, bytes.length) on a buffer viewed as a list). -/
def listWrite (buf : List Nat) (off : Nat) (bytes : List Nat) : List Nat :=
  buf.take off ++ bytes ++ buf.drop (off + bytes.length)

/-- Embedding of write_callback, lines 238-249 of the source.  The returned
Nat is the value handed back to curl: to_copy when bytes were copied, and
the size argument otherwise. -/
def write_callback (c : Chunk) (s : CaptureState) : CaptureState × Nat :=
  let curl_size := c.nmemb * c.size
  let to_copy := if s.response_len < curl_size then s.response_len else curl_size
  if to_copy > 0 then
    ({ buf := listWrite s.buf s.off (c.data.take to_copy),
       off := s.off + to_copy,
       response_len := s.response_len - to_copy }, to_copy)
  else
    (s, c.size)

/-- State transition of one write_callback invocation (its return value to
curl dropped). -/
def captureStep (s : CaptureState) (c : Chunk) : CaptureState := (write_callback c s).1

/-- The capture state after the exchange: write_callback folded over the
delivered chunks, starting from response_data = response_buffer and
response_len = cap (lines 270-271), with buf the contents of
response_buffer at the start of the exchange. -/
def captureResponse (cap : Nat) (buf : List Nat) (chunks : List Chunk) : CaptureState :=
  chunks.foldl captureStep { buf := buf, off := 0, response_len := cap }

/-- Reading a byte buffer as a C string: the bytes before the first null,
which is what fputs(response_buffer, ...) consumes. -/
def cstring (buf : List Nat) : List Nat := buf.takeWhile (fun b => b ≠ 0)

/-- Diagnostics emitted by send, one constructor per distinct message:
sendFailed is the transport-error report of lines 313-314, responseEcho the
verbose dump of the captured response at line 319, connectFailed the
message of line 328, httpStatus the messages of lines 330 and 335,
responseBody an emission of the response buffer read as a C string
(lines 332 and 336), aborted the message of lines 339-340. -/
inductive Diag
  | sendFailed
  | responseEcho
  | connectFailed
  | httpStatus (code : Nat)
  | responseBody (body : List Nat)
  | aborted
deriving DecidableEq

/-- Expected HTTP status of line 325: 204 for InfluxDB, else 200. -/
def expectedCode (t : ServerType) : Nat :=
  if t = ServerType.InfluxDB then 204 else 200

/-- Headers appended for a REST target, lines 285-288. -/
def restHeaders : List String :=
  ["Content-Type: application/json", "Accept: application/json",
   "charsets: utf-8", "Connection: close"]

/-- Headers appended for an InfluxDB target, lines 291-292: empty values
suppress content negotiation. -/
def influxHeaders : List String := ["Content-Type:", "Accept:"]

/-- Header list installed by lines 283-294, by server type. -/
def headersFor : ServerType → List String
  | ServerType.REST => restHeaders
  | ServerType.InfluxDB => influxHeaders

/-- Custom request method of lines 298-301: POST for InfluxDB, else PUT. -/
def methodFor (t : ServerType) : String :=
  if t = ServerType.InfluxDB then "POST" else "PUT"

/-- The inputs send consumes.  data_size and data_buffer are the return
value and the buffer contents produced by the external payload encoder
(message.json or message.influxDB); curl_ok tells whether curl_easy_init
succeeded; rc, http_code and chunks describe the transport outcome of
curl_easy_perform; verbose is (verbosity & VERBOSITY_PRINT_DETAILS) != 0
from line 252; cap is SERVER_RESPONSE_BUFFER_SIZE and buf0 the contents of
the reused response_buffer when send is entered. -/
structure SendInput where
  server_type : ServerType
  data_size : Int
  data_buffer : List Nat
  curl_ok : Bool
  rc : CURLcode
  http_code : Nat
  chunks : List Chunk
  verbose : Bool
  cap : Nat
  buf0 : List Nat
deriving DecidableEq

/-- Everything observable about one call of send: the returned boolean, the
acquired resources, the request configuration handed to curl, the final
contents of response_buffer, the offsets of null-terminator stores into
response_buffer performed after the exchange, and the diagnostics written
to stderr and to the log file. -/
structure SendResult where
  success : Bool
  handleAcquired : Bool
  exchanged : Bool
  method : Option String
  headers : List String
  body : Option (List Nat)
  buffer : List Nat
  termWrites : List Nat
  stderrMsgs : List Diag
  logMsgs : List Diag
deriving DecidableEq

/-- Embedding of send, lines 251-346 of the source.  The early return of
lines 262-265 fires on data_size <= 0 before response_buffer is touched and
before curl_easy_init; the early return of lines 276-280 fires when no curl
handle is obtained; otherwise the exchange runs: the response is captured
by write_callback, the verbose branch of lines 316-321 recomputes
response_len with size_t arithmetic and stores a terminator, and lines
322-341 classify the outcome and emit diagnostics. -/
def send (i : SendInput) : SendResult :=
  if i.data_size ≤ 0 then
    { success := false, handleAcquired := false, exchanged := false,
      method := none, headers := [], body := none, buffer := i.buf0,
      termWrites := [], stderrMsgs := [], logMsgs := [] }
  else if i.curl_ok = false then
    { success := false, handleAcquired := false, exchanged := false,
      method := none, headers := [], body := none, buffer := i.buf0.set 0 0,
      termWrites := [], stderrMsgs := [], logMsgs := [] }
  else
    let s := captureResponse i.cap (i.buf0.set 0 0) i.chunks
    let transportErr := i.rc ≠ CURLcode.CURLE_OK
    let errStderr := if transportErr then [Diag.sendFailed] else []
    let errLog := if transportErr then [Diag.sendFailed] else []
    let doTerm := i.verbose && s.buf.getD 0 0 != 0
    let rl := if s.response_len ≤ 0 then subW64 s.response_len 1 else s.response_len
    let tIdx := subW64 i.cap rl
    let buf1 := if doTerm then s.buf.set tIdx 0 else s.buf
    let termWrites := if doTerm then [tIdx] else []
    let dumpStderr := if doTerm then [Diag.responseEcho] else []
    let mismatch := i.http_code ≠ expectedCode i.server_type
    let success0 : Bool := i.rc == CURLcode.CURLE_OK
    let classStderr :=
      if mismatch then
        [if i.http_code = 0 then Diag.connectFailed else Diag.httpStatus i.http_code]
      else if i.rc = CURLcode.CURLE_ABORTED_BY_CALLBACK then [Diag.aborted] else []
    let classLog :=
      if mismatch then
        (if i.verbose then [Diag.responseBody (cstring buf1)] else []) ++
        [Diag.httpStatus i.http_code, Diag.responseBody (cstring buf1)]
      else if i.rc = CURLcode.CURLE_ABORTED_BY_CALLBACK then [Diag.aborted] else []
    { success := if mismatch then false else success0,
      handleAcquired := true, exchanged := true,
      method := some (methodFor i.server_type),
      headers := headersFor i.server_type,
      body := some i.data_buffer,
      buffer := buf1,
      termWrites := termWrites,
      stderrMsgs := errStderr ++ dumpStderr ++ classStderr,
      logMsgs := errLog ++ classLog }

/-- Closed form of one capture step: the copied amount is always
min response_len (nmemb * size); with a zero amount the state is unchanged
and the formula degenerates accordingly. -/
lemma captureStep_eq (c : Chunk) (s : CaptureState) :
    captureStep s c =
      { buf := listWrite s.buf s.off (c.data.take (min s.response_len (c.nmemb * c.size))),
        off := s.off + min s.response_len (c.nmemb * c.size),
        response_len := s.response_len - min s.response_len (c.nmemb * c.size) } := by
  unfold captureStep write_callback
  have hmin : (if s.response_len < c.nmemb * c.size then s.response_len else c.nmemb * c.size)
      = min s.response_len (c.nmemb * c.size) := by
    split <;> omega
  dsimp only
  rw [hmin]
  split
  · rfl
  · rename_i h
    have h0 : min s.response_len (c.nmemb * c.size) = 0 := by omega
    cases s with
    | mk buf off rl =>
      simp [h0, listWrite]

/-- Writing within the bounds of a list keeps its length. -/
lemma listWrite_length (buf : List Nat) (off : Nat) (bytes : List Nat)
    (h : off + bytes.length ≤ buf.length) :
    (listWrite buf off bytes).length = buf.length := by
  simp only [listWrite, List.length_append, List.length_take, List.length_drop]
  omega

/-- flatData distributes over cons. -/
lemma flatData_cons (c : Chunk) (l : List Chunk) :
    flatData (c :: l) = c.data ++ flatData l := rfl

/-- totalSize distributes over cons. -/
lemma totalSize_cons (c : Chunk) (l : List Chunk) :
    totalSize (c :: l) = c.nmemb * c.size + totalSize l := by
  simp [totalSize]

/-- Main invariant of the capture fold.  Starting from any state whose
pointer offset and remaining capacity partition the buffer, the final
offset is the buffer length capped sum of the delivered sizes, offset plus
remaining capacity still equals the buffer length, the buffer length is
unchanged, and the final buffer is the untouched prefix before the start
offset, then the delivered bytes that fit, then the untouched tail. -/
lemma capture_fold : ∀ (chunks : List Chunk) (s : CaptureState),
    (∀ c ∈ chunks, chunkWF c) →
    s.off + s.response_len = s.buf.length →
    (chunks.foldl captureStep s).off = min s.buf.length (s.off + totalSize chunks) ∧
    (chunks.foldl captureStep s).off + (chunks.foldl captureStep s).response_len
      = s.buf.length ∧
    (chunks.foldl captureStep s).buf.length = s.buf.length ∧
    (chunks.foldl captureStep s).buf =
      s.buf.take s.off
        ++ (flatData chunks).take ((chunks.foldl captureStep s).off - s.off)
        ++ s.buf.drop ((chunks.foldl captureStep s).off)
  | [], s => by
    intro _ hinv
    refine ⟨?_, by simpa using hinv, rfl, ?_⟩
    · simp only [List.foldl_nil, totalSize, List.map_nil, List.sum_nil, Nat.add_zero]
      omega
    · simp [flatData]
  | c :: rest, s => by
    intro hwf hinv
    have hwfc : chunkWF c := hwf c (by simp)
    have hwfr : ∀ x ∈ rest, chunkWF x := fun x hx => hwf x (by simp [hx])
    set cs := c.nmemb * c.size with hcs
    set t := min s.response_len cs with ht
    have htle : t ≤ s.response_len := by omega
    have htcs : t ≤ cs := by omega
    have hdl : c.data.length = cs := hwfc
    have hoffle : s.off ≤ s.buf.length := by omega
    have hstep : captureStep s c =
        { buf := listWrite s.buf s.off (c.data.take t),
          off := s.off + t, response_len := s.response_len - t } := captureStep_eq c s
    have hbytes : (c.data.take t).length = t := by
      simp only [List.length_take]; omega
    have hs1len : (captureStep s c).buf.length = s.buf.length := by
      rw [hstep]
      exact listWrite_length _ _ _ (by rw [hbytes]; omega)
    have hs1inv : (captureStep s c).off + (captureStep s c).response_len
        = (captureStep s c).buf.length := by
      rw [hs1len, hstep]
      dsimp only
      omega
    obtain ⟨ih1, ih2, ih3, ih4⟩ := capture_fold rest (captureStep s c) hwfr hs1inv
    rw [List.foldl_cons]
    set f := rest.foldl captureStep (captureStep s c) with hf
    have hs1off : (captureStep s c).off = s.off + t := by rw [hstep]
    have hfoffge : s.off + t ≤ f.off := by
      rw [ih1, hs1len, hs1off]
      have := hs1inv
      rw [hs1len, hs1off] at this
      omega
    have hfoffle : f.off ≤ s.buf.length := by
      rw [ih1, hs1len]
      omega
    have hoff : f.off = min s.buf.length (s.off + totalSize (c :: rest)) := by
      rw [ih1, hs1len, hs1off, totalSize_cons, ← hcs]
      omega
    refine ⟨hoff, by rw [ih2, hs1len], by rw [ih3, hs1len], ?_⟩
    -- buffer characterisation
    have hA : (s.buf.take s.off).length = s.off := by
      simp only [List.length_take]; omega
    have hbuf1 : (captureStep s c).buf
        = s.buf.take s.off ++ (c.data.take t ++ s.buf.drop (s.off + t)) := by
      rw [hstep]
      dsimp only
      rw [listWrite, hbytes, List.append_assoc]
    have htake1 : (captureStep s c).buf.take (s.off + t)
        = s.buf.take s.off ++ c.data.take t := by
      rw [hbuf1]
      conv_lhs => rw [show s.off + t = (List.take s.off s.buf).length + t from by rw [hA]]
      rw [List.take_append, List.take_left' hbytes]
    set k := f.off - (s.off + t) with hk
    have hfoff : f.off = s.off + t + k := by omega
    have hdrop1 : (captureStep s c).buf.drop f.off = s.buf.drop f.off := by
      rw [hbuf1]
      conv_lhs =>
        rw [show f.off = (List.take s.off s.buf).length + (t + k) from by rw [hA]; omega]
      rw [List.drop_append]
      rw [show t + k = (List.take t c.data).length + k from by rw [hbytes]]
      rw [List.drop_append, List.drop_drop]
      congr 1
      omega
    have hmid : c.data.take t ++ (flatData rest).take k
        = (c.data ++ flatData rest).take (t + k) := by
      rcases Nat.lt_or_ge t cs with hlt | hge
      · -- truncated chunk: remaining capacity was exhausted, k = 0
        have htrl : t = s.response_len := by omega
        have hofft : s.off + t = s.buf.length := by omega
        have hk0 : k = 0 := by
          rw [hk]
          omega
        rw [hk0, List.take_zero, List.append_nil, Nat.add_zero,
          List.take_append_of_le_length (by omega)]
      · have hteq : t = c.data.length := by omega
        rw [hteq, List.take_length, List.take_append]
    rw [ih4, hs1off, htake1, hdrop1, flatData_cons, ← hk]
    congr 1
    rw [List.append_assoc]
    congr 1
    rw [hmid]
    congr 1
    omega

/-- Concrete send input used to exercise the success classification. -/
def c2ex : SendInput :=
  { server_type := ServerType.REST, data_size := 1, data_buffer := [49],
    curl_ok := true, rc := CURLcode.CURLE_OK, http_code := 200, chunks := [],
    verbose := false, cap := 4, buf0 := [0, 0, 0, 0] }

/-- C2: for every completed call of send that reaches the exchange, the
returned boolean is true iff the transport exchange completed without a
transport level error and the observed HTTP status equals the expected
code of the protocol (200 for REST, 204 for InfluxDB); any mismatch,
including the could-not-connect sentinel status 0, yields false even when
the transport layer reports no error. -/
theorem send_success_iff (i : SendInput) (h1 : 0 < i.data_size) (h2 : i.curl_ok = true) :
    ((send i).success = true ↔
      (i.rc = CURLcode.CURLE_OK ∧ i.http_code = expectedCode i.server_type)) ∧
    expectedCode ServerType.REST = 200 ∧ expectedCode ServerType.InfluxDB = 204 := by
  refine ⟨?_, by decide, by decide⟩
  unfold send
  rw [if_neg (by omega), if_neg (by simp [h2])]
  by_cases hm : i.http_code = expectedCode i.server_type
  · simp [hm]
  · simp [hm]

/-- Witness for send_success_iff at a concrete input. -/
theorem send_success_iff_witness : (send c2ex).success = true :=
  (send_success_iff c2ex (by decide) rfl).1.mpr (by decide)

/-- Concrete send input whose encoder produced no payload. -/
def c4ex : SendInput :=
  { server_type := ServerType.InfluxDB, data_size := 0, data_buffer := [],
    curl_ok := true, rc := CURLcode.CURLE_OK, http_code := 204, chunks := [],
    verbose := false, cap := 4, buf0 := [0, 0, 0, 0] }

/-- C4: whenever the encoder returns a length less than or equal to zero,
send returns false immediately, no transport handle is acquired, and no
network exchange is attempted. -/
theorem send_no_payload (i : SendInput) (h : i.data_size ≤ 0) :
    (send i).success = false ∧ (send i).handleAcquired = false ∧
    (send i).exchanged = false := by
  unfold send
  rw [if_pos h]
  exact ⟨rfl, rfl, rfl⟩

/-- Witness for send_no_payload at a concrete input. -/
theorem send_no_payload_witness :
    (send c4ex).success = false ∧ (send c4ex).handleAcquired = false ∧
    (send c4ex).exchanged = false :=
  send_no_payload c4ex (by decide)

/-- Concrete send input used to exercise the request configuration. -/
def c7ex : SendInput :=
  { server_type := ServerType.InfluxDB, data_size := 3, data_buffer := [97, 98, 99],
    curl_ok := true, rc := CURLcode.CURLE_OK, http_code := 204, chunks := [],
    verbose := false, cap := 4, buf0 := [0, 0, 0, 0] }

/-- C7: for every dispatched exchange the request configuration is
determined by the protocol of the target: REST uses method PUT with the
four headers Content-Type: application/json, Accept: application/json, a
UTF-8 charset hint and Connection: close; InfluxDB uses method POST and
suppresses the Content-Type and Accept headers; in both cases the request
body is the already encoded flat outbound buffer. -/
theorem send_request_config (i : SendInput) (h1 : 0 < i.data_size)
    (h2 : i.curl_ok = true) :
    (send i).method = some (methodFor i.server_type) ∧
    (send i).headers = headersFor i.server_type ∧
    (send i).body = some i.data_buffer ∧
    methodFor ServerType.REST = "PUT" ∧
    methodFor ServerType.InfluxDB = "POST" ∧
    headersFor ServerType.REST =
      ["Content-Type: application/json", "Accept: application/json",
       "charsets: utf-8", "Connection: close"] ∧
    headersFor ServerType.InfluxDB = ["Content-Type:", "Accept:"] := by
  unfold send
  rw [if_neg (by omega), if_neg (by simp [h2])]
  exact ⟨rfl, rfl, rfl, rfl, rfl, rfl, rfl⟩

/-- Witness for send_request_config at a concrete input. -/
theorem send_request_config_witness :
    (send c7ex).method = some "POST" ∧ (send c7ex).body = some [97, 98, 99] :=
  ⟨(send_request_config c7ex (by decide) rfl).1,
   (send_request_config c7ex (by decide) rfl).2.2.1⟩

/-- C5: with the send-all override disabled (changes_only true), the loop
never invokes send for a decoded message whose change bitmask is zero, and
never for a message whose validity flag is false, regardless of the
bitmask the change tracker would produce. -/
theorem changes_only_no_dispatch (m : Message) (tracker : Nat) (t : ServerType)
    (hd : m.isEmpty = false) (hu : m.isUndecoded = false)
    (h : tracker = 0 ∨ m.isValid = false) :
    ∀ c, classifyMessage m tracker true t ≠ LoopAction.dispatch c := by
  intro c
  unfold classifyMessage
  rw [if_neg (by simp [hd]), if_neg (by simp [hu])]
  rcases h with h | h
  · subst h
    cases hv : m.isValid <;> simp [hv]
  · simp [h]

/-- Witness for changes_only_no_dispatch at a concrete input. -/
theorem changes_only_no_dispatch_witness :
    classifyMessage ⟨false, false, true, 0⟩ 0 true ServerType.InfluxDB
      ≠ LoopAction.dispatch fullMask :=
  changes_only_no_dispatch ⟨false, false, true, 0⟩ 0 ServerType.InfluxDB rfl rfl
    (Or.inl rfl) fullMask

/-- C8: a message classified as empty is only reported; an undecoded
message is only reported together with its decoding status code; neither
is ever dispatched. -/
theorem empty_undecoded_report_only (m : Message) (tracker : Nat) (co : Bool)
    (t : ServerType) :
    (m.isEmpty = true → classifyMessage m tracker co t = LoopAction.reportEmpty) ∧
    (m.isEmpty = false → m.isUndecoded = true →
      classifyMessage m tracker co t = LoopAction.reportUndecoded m.decodingStatus) ∧
    ((m.isEmpty = true ∨ m.isUndecoded = true) →
      ∀ c, classifyMessage m tracker co t ≠ LoopAction.dispatch c) := by
  refine ⟨fun h => ?_, fun h1 h2 => ?_, fun h c => ?_⟩
  · unfold classifyMessage
    rw [if_pos h]
  · unfold classifyMessage
    rw [if_neg (by simp [h1]), if_pos h2]
  · unfold classifyMessage
    by_cases he : m.isEmpty = true
    · rw [if_pos he]
      simp
    · rcases h with h | h
      · exact absurd h he
      · rw [if_neg he, if_pos h]
        simp

/-- Witness for empty_undecoded_report_only at concrete inputs. -/
theorem empty_undecoded_report_only_witness :
    classifyMessage ⟨true, false, false, 0⟩ 3 true ServerType.REST
      = LoopAction.reportEmpty ∧
    classifyMessage ⟨false, true, false, 7⟩ 3 true ServerType.REST
      = LoopAction.reportUndecoded 7 :=
  ⟨(empty_undecoded_report_only ⟨true, false, false, 0⟩ 3 true ServerType.REST).1 rfl,
   (empty_undecoded_report_only ⟨false, true, false, 7⟩ 3 true ServerType.REST).2.1 rfl rfl⟩

/-- C6 counterexample: with the override enabled, a valid decoded message
whose tracker bitmask is the single flag TEMPERATURE_IS_CHANGED is
dispatched with that partial bitmask, not with the full bitmask, because
line 188 forces the full bitmask only when the tracker bitmask is zero. -/
theorem override_full_mask_counterexample :
    classifyMessage ⟨false, false, true, 0⟩ TEMPERATURE_IS_CHANGED false ServerType.InfluxDB
      = LoopAction.dispatch TEMPERATURE_IS_CHANGED ∧
    TEMPERATURE_IS_CHANGED ≠ fullMask ∧ TEMPERATURE_IS_CHANGED ≠ 0 := by
  decide

/-- C6 (amended): with the send-all override enabled, every valid decoded
message is dispatched — with the full bitmask when the tracker bitmask is
zero and with the tracker bitmask unchanged otherwise — and an invalid
decoded message is dispatched with the full bitmask when the target is
REST; the InfluxDB exchange uses method POST. -/
theorem override_dispatch (m : Message) (tracker : Nat) (t : ServerType)
    (hd : m.isEmpty = false) (hu : m.isUndecoded = false) :
    (m.isValid = true →
      classifyMessage m tracker false t
        = LoopAction.dispatch (if tracker = 0 then fullMask else tracker)) ∧
    (m.isValid = false → t = ServerType.REST →
      classifyMessage m tracker false t = LoopAction.dispatch fullMask) ∧
    methodFor ServerType.InfluxDB = "POST" ∧ fullMask ≠ 0 := by
  have hfm : fullMask ≠ 0 := by decide
  refine ⟨fun hv => ?_, fun hv ht => ?_, by decide, hfm⟩
  · unfold classifyMessage
    rw [if_neg (by simp [hd]), if_neg (by simp [hu])]
    by_cases h0 : tracker = 0
    · subst h0
      simp [hv, hfm]
    · simp [hv, h0]
  · unfold classifyMessage
    rw [if_neg (by simp [hd]), if_neg (by simp [hu])]
    subst ht
    simp [hv, hfm]

/-- Witness for override_dispatch: scenario C, an InfluxDB target with a
valid message and a zero tracker bitmask is dispatched with the full
bitmask. -/
theorem override_dispatch_witness :
    classifyMessage ⟨false, false, true, 0⟩ 0 false ServerType.InfluxDB
      = LoopAction.dispatch fullMask := by
  have h := (override_dispatch ⟨false, false, true, 0⟩ 0 ServerType.InfluxDB rfl rfl).1 rfl
  simpa using h

/-- Failing input for the terminator placement of lines 316-321: details
verbosity on and a server response that fills the inbound buffer exactly
(here the stand-in capacity is 8), so that the remaining capacity counter
reaches zero. -/
def c1ex : SendInput :=
  { server_type := ServerType.REST, data_size := 1, data_buffer := [49],
    curl_ok := true, rc := CURLcode.CURLE_OK, http_code := 500,
    chunks := [{ size := 1, nmemb := 8, data := [65, 65, 65, 65, 65, 65, 65, 65] }],
    verbose := true, cap := 8, buf0 := [1, 1, 1, 1, 1, 1, 1, 1] }

/-- C1: at the failing input the remaining capacity counter is zero after
capture, the line 317 guard turns it into 2 ^ 64 - 1 by unsigned
subtraction instead of clamping it at zero, and the terminator store of
line 318 is issued at index capacity + 1 — every terminator store of this
exchange lands outside the valid index range of the inbound buffer. -/
theorem send_terminator_out_of_bounds :
    (captureResponse c1ex.cap (c1ex.buf0.set 0 0) c1ex.chunks).response_len = 0 ∧
    (send c1ex).termWrites = [c1ex.cap + 1] ∧
    ∀ j ∈ (send c1ex).termWrites, ¬ j < c1ex.cap := by
  decide

/-- Concrete send input for a could-not-connect exchange: curl reports no
transport error object here, the response code stays at the sentinel 0. -/
def c9ex : SendInput :=
  { server_type := ServerType.REST, data_size := 1, data_buffer := [49],
    curl_ok := true, rc := CURLcode.CURLE_OK, http_code := 0, chunks := [],
    verbose := false, cap := 4, buf0 := [0, 0, 0, 0] }

/-- C9 counterexample: on a could-not-connect exchange (status sentinel 0)
the log file does not receive a connect-failure message; it receives the
same generic status-code message that a wrong-status exchange produces
(line 335 runs in both cases), while the distinct connect-failure message
of line 328 goes to stderr only. -/
theorem connect_failure_not_in_log :
    (send c9ex).success = false ∧
    c9ex.http_code = 0 ∧
    Diag.connectFailed ∉ (send c9ex).logMsgs ∧
    Diag.httpStatus 0 ∈ (send c9ex).logMsgs ∧
    Diag.connectFailed ∈ (send c9ex).stderrMsgs := by
  decide

/-- C9 (amended): every exchange whose observed status differs from the
expected code of the protocol returns failure; on the live error stream
the could-not-connect case (status sentinel 0) is recorded with a
connect-failure message that is distinct from the status-mismatch message
used for every other unexpected code; the persistent log file receives the
generic status-code message in both cases. -/
theorem status_mismatch_diagnostics (i : SendInput) (h1 : 0 < i.data_size)
    (h2 : i.curl_ok = true) (hm : i.http_code ≠ expectedCode i.server_type) :
    (send i).success = false ∧
    (i.http_code = 0 →
      Diag.connectFailed ∈ (send i).stderrMsgs ∧
      ∀ code, Diag.httpStatus code ∉ (send i).stderrMsgs) ∧
    (i.http_code ≠ 0 →
      Diag.httpStatus i.http_code ∈ (send i).stderrMsgs ∧
      Diag.connectFailed ∉ (send i).stderrMsgs) ∧
    Diag.httpStatus i.http_code ∈ (send i).logMsgs := by
  unfold send
  rw [if_neg (by omega), if_neg (by simp [h2])]
  refine ⟨by simp [hm], fun h0 => ⟨?_, fun code => ?_⟩, fun h0 => ⟨?_, ?_⟩, ?_⟩
  · simp only [h0, List.mem_append]
    split_ifs <;> simp_all
  · simp only [h0, List.mem_append]
    split_ifs <;> simp_all
  · simp only [List.mem_append]
    split_ifs <;> simp_all
  · simp only [List.mem_append]
    split_ifs <;> simp_all
  · simp only [List.mem_append]
    split_ifs <;> simp_all

/-- Witness for status_mismatch_diagnostics at a concrete input. -/
theorem status_mismatch_diagnostics_witness :
    (send c9ex).success = false ∧ Diag.connectFailed ∈ (send c9ex).stderrMsgs ∧
    Diag.httpStatus 0 ∈ (send c9ex).logMsgs := by
  obtain ⟨ha, hb, _, hd⟩ := status_mismatch_diagnostics c9ex (by decide) rfl (by decide)
  exact ⟨ha, (hb rfl).1, hd⟩

/-- C3: for every sequence of response chunks the cumulative number of
bytes copied into the inbound buffer (the advance of the response pointer)
never exceeds the original capacity; it always partitions the capacity
with the remaining counter, the buffer length never grows, and each single
chunk copies exactly min (remaining capacity) (chunk size) bytes while the
remaining capacity decreases by exactly that amount. -/
theorem capture_never_exceeds_capacity (cap : Nat) (buf0 : List Nat)
    (chunks : List Chunk) (hlen : buf0.length = cap)
    (hwf : ∀ c ∈ chunks, chunkWF c) :
    (captureResponse cap buf0 chunks).off ≤ cap ∧
    (captureResponse cap buf0 chunks).off
      + (captureResponse cap buf0 chunks).response_len = cap ∧
    (captureResponse cap buf0 chunks).buf.length = cap ∧
    (∀ (c : Chunk) (st : CaptureState),
      (captureStep st c).off = st.off + min st.response_len (c.nmemb * c.size) ∧
      (captureStep st c).response_len
        = st.response_len - min st.response_len (c.nmemb * c.size)) := by
  obtain ⟨h1, h2, h3, _⟩ :=
    capture_fold chunks { buf := buf0, off := 0, response_len := cap } hwf (by simp [hlen])
  simp only [hlen] at h1 h2 h3
  unfold captureResponse
  refine ⟨by omega, h2, h3, fun c st => ?_⟩
  rw [captureStep_eq]
  exact ⟨rfl, rfl⟩

/-- Witness for capture_never_exceeds_capacity at a concrete input: a
three byte chunk arriving at a two byte buffer. -/
theorem capture_never_exceeds_capacity_witness :
    (captureResponse 2 [9, 9] [⟨1, 3, [5, 6, 7]⟩]).off ≤ 2 ∧
    (captureResponse 2 [9, 9] [⟨1, 3, [5, 6, 7]⟩]).off
      + (captureResponse 2 [9, 9] [⟨1, 3, [5, 6, 7]⟩]).response_len = 2 ∧
    (captureResponse 2 [9, 9] [⟨1, 3, [5, 6, 7]⟩]).buf.length = 2 ∧
    (∀ (c : Chunk) (st : CaptureState),
      (captureStep st c).off = st.off + min st.response_len (c.nmemb * c.size) ∧
      (captureStep st c).response_len
        = st.response_len - min st.response_len (c.nmemb * c.size)) :=
  capture_never_exceeds_capacity 2 [9, 9] [⟨1, 3, [5, 6, 7]⟩] rfl (by decide)

/-- When the delivered response holds at least as many bytes as the buffer
capacity, the capture fills the whole buffer with the first cap delivered
bytes: every byte of the initial buffer contents, including the
terminator placed at index 0 before the exchange, is overwritten. -/
lemma captureResponse_full (cap : Nat) (buf0 : List Nat) (chunks : List Chunk)
    (hlen : buf0.length = cap) (hwf : ∀ c ∈ chunks, chunkWF c)
    (htot : cap ≤ totalSize chunks) :
    (captureResponse cap buf0 chunks).buf = (flatData chunks).take cap ∧
    (captureResponse cap buf0 chunks).off = cap ∧
    (captureResponse cap buf0 chunks).response_len = 0 := by
  obtain ⟨h1, h2, h3, h4⟩ :=
    capture_fold chunks { buf := buf0, off := 0, response_len := cap } hwf (by simp [hlen])
  dsimp only at h1 h2 h3 h4
  rw [hlen] at h1 h2
  unfold captureResponse
  have hoff : (List.foldl captureStep { buf := buf0, off := 0, response_len := cap } chunks).off
      = cap := by omega
  refine ⟨?_, hoff, by omega⟩
  rw [h4, hoff]
  simp only [List.take_zero, List.nil_append, Nat.sub_zero]
  rw [List.drop_eq_nil_of_le (by omega), List.append_nil]

/-- A byte list without null bytes is read whole as a C string. -/
lemma cstring_of_no_null (l : List Nat) (h : ∀ b ∈ l, b ≠ 0) : cstring l = l := by
  unfold cstring
  rw [List.takeWhile_eq_self_iff]
  intro x hx
  simpa using h x hx

/-- C10: for every exchange whose server response is at least as long as
the inbound buffer capacity (here with no null bytes in the response) and
whose details verbosity is off, send writes no null terminator into the
inbound buffer after the exchange — the terminator placed at index 0
before the exchange was overwritten during capture and the final buffer is
exactly the first cap response bytes, containing no null byte — yet on a
status mismatch the buffer is emitted to the log as a null terminated
string. -/
theorem no_terminator_when_not_verbose (i : SendInput)
    (h1 : 0 < i.data_size) (h2 : i.curl_ok = true) (hv : i.verbose = false)
    (hlen : i.buf0.length = i.cap)
    (hwf : ∀ c ∈ i.chunks, chunkWF c)
    (htot : i.cap ≤ totalSize i.chunks)
    (hnz : ∀ b ∈ flatData i.chunks, b ≠ 0)
    (hm : i.http_code ≠ expectedCode i.server_type) :
    (send i).termWrites = [] ∧
    (send i).buffer = (flatData i.chunks).take i.cap ∧
    (0 : Nat) ∉ (send i).buffer ∧
    Diag.responseBody ((send i).buffer) ∈ (send i).logMsgs := by
  obtain ⟨hb, ho, hr⟩ :=
    captureResponse_full i.cap (i.buf0.set 0 0) i.chunks (by simp [hlen]) hwf htot
  have hnz2 : (0 : Nat) ∉ (flatData i.chunks).take i.cap := fun hmem =>
    hnz 0 (List.take_subset _ _ hmem) rfl
  have hcs : cstring ((flatData i.chunks).take i.cap) = (flatData i.chunks).take i.cap :=
    cstring_of_no_null _ (fun b hb2 => hnz b (List.take_subset _ _ hb2))
  unfold send
  rw [if_neg (by omega), if_neg (by simp [h2])]
  refine ⟨?_, ?_, ?_, ?_⟩
  · simp [hv]
  · simp [hv, hb]
  · simp [hv, hb, hnz2]
  · simp only [hv, hb, hcs, Bool.false_and, Bool.and_self, if_neg, List.mem_append]
    split_ifs <;> simp_all

/-- Concrete send input for the non-verbose overflow-capture scenario: a
two byte buffer entirely filled by a two byte response, verbosity off. -/
def c10ex : SendInput :=
  { server_type := ServerType.REST, data_size := 1, data_buffer := [49],
    curl_ok := true, rc := CURLcode.CURLE_OK, http_code := 500,
    chunks := [{ size := 1, nmemb := 2, data := [65, 66] }],
    verbose := false, cap := 2, buf0 := [7, 7] }

/-- Witness for no_terminator_when_not_verbose at a concrete input. -/
theorem no_terminator_when_not_verbose_witness :
    (send c10ex).termWrites = [] ∧
    (send c10ex).buffer = (flatData c10ex.chunks).take c10ex.cap ∧
    (0 : Nat) ∉ (send c10ex).buffer ∧
    Diag.responseBody ((send c10ex).buffer) ∈ (send c10ex).logMsgs :=
  no_terminator_when_not_verbose c10ex (by decide) rfl rfl rfl (by decide)
    (by decide) (by decide) (by decide)

end F007th
